import Mathlib

/-!
Shallow embedding of the wondercam streaming gateway (src/api) and proofs
about its specified behaviour.

Conventions used throughout:
* Python strings are Lean `String`s; string methods are modelled by
  character-list functions (`pyStrip`, `pyLower`, `pyReplace`, `pySplitOn`,
  `pyJoin`, `pyStartsWith`, `pyEndsWith`, `pyContains`); character classes
  are modelled on the ASCII range.
* Python dicts holding string keys/values are association lists (`PyDict`);
  `dict.get k dflt` is `dictGet`.
* Python floats are modelled as exact rationals (`ℚ`); the float comparison
  `ratio > 0.6` is modelled as the exact rational comparison.
* Fallible Python code is modelled with `Except PyExn`; a top level
  `try/except` is a total function that maps the error branch explicitly.
-/

/-- Python truthiness of an `Optional[str]` (None and "" are falsy). -/
def truthyStr : Option String → Bool
  | none => false
  | some s => s ≠ ""

/-- A Python dict with string keys and values, as an association list. -/
abbrev PyDict := List (String × String)

/-- Python `d.get(k, dflt)` (first binding wins, as in a dict). -/
def dictGet : PyDict → String → String → String
  | [], _, dflt => dflt
  | (k', v) :: rest, k, dflt => if k = k' then v else dictGet rest k dflt

/-- Python truthiness of an `Optional[dict]` (None and {} are falsy). -/
def truthyDict : Option PyDict → Bool
  | none => false
  | some d => d ≠ []

/-- List-level prefix test used to model substring search. -/
def startsWithList : List Char → List Char → Bool
  | [], _ => true
  | _ :: _, [] => false
  | a :: as, b :: bs => a = b && startsWithList as bs

/-- List-level substring test: `needle` occurs somewhere in `l`. -/
def listContainsSub (needle : List Char) : List Char → Bool
  | [] => startsWithList needle []
  | x :: xs => startsWithList needle (x :: xs) || listContainsSub needle xs

/-- Python `needle in s` on strings. -/
def pyContains (needle s : String) : Bool :=
  listContainsSub needle.toList s.toList

/-- Python `s.lower()` (ASCII case mapping). -/
def pyLower (s : String) : String :=
  String.mk (s.toList.map Char.toLower)

/-- Python `s.startswith(pat)`. -/
def pyStartsWith (s pat : String) : Bool :=
  startsWithList pat.toList s.toList

/-- Python `s.endswith(pat)`. -/
def pyEndsWith (s pat : String) : Bool :=
  startsWithList pat.toList.reverse s.toList.reverse

/-- Whitespace characters as recognized by Python `str.strip()` (ASCII). -/
def pyIsSpace (c : Char) : Bool :=
  c = ' ' || c = '\t' || c = '\n' || c = '\x0d' || c = '\x0b' || c = '\x0c'

/-- Python `s.strip()`. -/
def pyStrip (s : String) : String :=
  String.mk ((((s.toList.dropWhile pyIsSpace).reverse).dropWhile pyIsSpace).reverse)

/-- Left-to-right non-overlapping replacement scan of `str.replace`; the
fuel is the length of the scanned list. -/
def replaceScan (pat rep : List Char) : Nat → List Char → List Char
  | _, [] => []
  | 0, l => l
  | fuel + 1, x :: xs =>
    if startsWithList pat (x :: xs) ∧ pat ≠ [] then
      rep ++ replaceScan pat rep fuel (List.drop (pat.length - 1) xs)
    else x :: replaceScan pat rep fuel xs

/-- Python `s.replace(pat, rep)` for a non-empty pattern. -/
def pyReplace (s pat rep : String) : String :=
  String.mk (replaceScan pat.toList rep.toList s.toList.length s.toList)

/-- The splitting scan of `str.split(sep)` for a non-empty separator; `acc`
holds the current segment reversed, the fuel is the length of the scanned
list. -/
def splitOnScan (sep : List Char) : Nat → List Char → List Char → List (List Char)
  | _, acc, [] => [acc.reverse]
  | 0, acc, l => [acc.reverse ++ l]
  | fuel + 1, acc, x :: xs =>
    if startsWithList sep (x :: xs) ∧ sep ≠ [] then
      acc.reverse :: splitOnScan sep fuel [] (List.drop (sep.length - 1) xs)
    else splitOnScan sep fuel (x :: acc) xs

/-- Python `s.split(sep)` for a non-empty separator. -/
def pySplitOn (s sep : String) : List String :=
  (splitOnScan sep.toList s.toList.length [] s.toList).map String.mk

/-- Python `sep.join(xs)`. -/
def pyJoin (sep : String) (xs : List String) : String :=
  String.mk (List.intercalate sep.toList (xs.map String.toList))

/-- Split a character list at every comma, like Python `s.split(",")`. -/
def splitComma : List Char → List (List Char)
  | [] => [[]]
  | c :: rest =>
    match splitComma rest with
    | s :: ss => if c = ',' then [] :: s :: ss else (c :: s) :: ss
    | [] => [[]]

/-- v2_translator.v2_to_vertex lines 246-249: if the inline payload contains
a comma, replace it by `data.split(",")[1]` (the second comma-separated
segment); otherwise pass it through unchanged. -/
def stripDataUrl (data : String) : String :=
  if data.toList.contains ',' then
    match splitComma data.toList with
    | _ :: second :: _ => String.mk second
    | _ => data
  else data

/-- v2_models.V2ContentPart: a flexible content part (text or inlineData). -/
structure V2ContentPart where
  text : Option String
  inlineData : Option PyDict
deriving DecidableEq

/-- v2_models.V2ChatRequest (fields not read by the modelled code paths,
such as session_id and preprocessing, are omitted). -/
structure V2ChatRequest where
  contents : List V2ContentPart
  language : Option String
  stream : Bool
deriving DecidableEq

/-- A Vertex AI wire-level part (text or inline data). -/
inductive VPart
  | text (s : String)
  | inlineData (mimeType data : String)
deriving DecidableEq

/-- v2_models.VertexContent: one role-tagged turn. -/
structure VertexContent where
  role : String
  parts : List VPart
deriving DecidableEq

/-- The fixed generation configuration from v2_to_vertex. -/
structure GenerationConfig where
  temperature : Nat
  topP : Nat
  responseModalities : List String
deriving DecidableEq

/-- v2_models.VertexRequest. -/
structure VertexRequest where
  contents : List VertexContent
  safetySettings : List (String × String)
  tools : List String
  generationConfig : GenerationConfig
deriving DecidableEq

/-- The static safety settings table built by v2_to_vertex. -/
def safetySettingsTable : List (String × String) :=
  [("HARM_CATEGORY_HATE_SPEECH", "OFF"),
   ("HARM_CATEGORY_SEXUALLY_EXPLICIT", "OFF"),
   ("HARM_CATEGORY_HARASSMENT", "OFF"),
   ("HARM_CATEGORY_DANGEROUS_CONTENT", "OFF"),
   ("HARM_CATEGORY_CIVIC_INTEGRITY", "BLOCK_NONE")]

/-- V2MessageTranslator.language_instructions. -/
def language_instructions : PyDict :=
  [("en", "Respond in English."),
   ("zh", "请用中文回答。"),
   ("es", "Responde en español."),
   ("fr", "Répondez en français."),
   ("ja", "日本語で答えてください。")]

/-- One iteration of the content-part loop of v2_to_vertex (lines 227-274):
the wire parts a single V2 content part contributes. -/
def partToVertex (p : V2ContentPart) : List VPart :=
  if truthyStr p.text then
    let t := pyStrip ((p.text).getD "")
    if t ≠ "" then [.text t] else []
  else if truthyDict p.inlineData then
    let d := (p.inlineData).getD []
    let mime := dictGet d "mimeType" "image/jpeg"
    let data := dictGet d "data" ""
    if data = "" then []
    else
      let data := stripDataUrl data
      if pyStartsWith mime "image/" then [.inlineData mime data]
      else if pyStartsWith mime "audio/" then [.inlineData mime data]
      else [.text ("[Unsupported content type: " ++ mime ++ "]")]
  else []

/-- The language-instruction parts prepended by v2_to_vertex (lines 218-222). -/
def langParts (language : Option String) : List VPart :=
  if truthyStr language ∧ language ≠ some "en" then
    let ins := dictGet language_instructions (language.getD "") ""
    if ins ≠ "" then [.text ins] else []
  else []

/-- V2MessageTranslator.v2_to_vertex: translate a V2 request into a single
"user" turn in Vertex AI format. -/
def v2_to_vertex (req : V2ChatRequest) : VertexRequest :=
  let parts := langParts req.language ++ (req.contents.map partToVertex).flatten
  { contents := [{ role := "user", parts := parts }]
    safetySettings := safetySettingsTable
    tools := []
    generationConfig :=
      { temperature := 1, topP := 1, responseModalities := ["TEXT", "IMAGE"] } }

/-- prompt_analyzer.AnalysisAction. -/
inductive AnalysisAction
  | REFINED
  | DIRECT_REPLY
  | PASS_THROUGH
deriving DecidableEq

/-- The `AnalysisAction(value)` enum constructor: `some` on the three member
values, `none` models the `ValueError` Python raises otherwise. -/
def AnalysisAction.ofValue : String → Option AnalysisAction
  | "refined" => some .REFINED
  | "direct_reply" => some .DIRECT_REPLY
  | "pass_through" => some .PASS_THROUGH
  | _ => none

/-- prompt_analyzer.AnalysisResult. -/
structure AnalysisResult where
  action : AnalysisAction
  refined_prompt : Option String
  direct_reply : Option String
  confidence : ℚ
  reasoning : String
deriving DecidableEq

/-- An AnalysisResult with only action and reasoning set (the pydantic model
defaults: refined_prompt None, direct_reply None, confidence 0.0). -/
def passThroughResult (reason : String) : AnalysisResult :=
  { action := .PASS_THROUGH, refined_prompt := none, direct_reply := none
    confidence := 0, reasoning := reason }

/-- Maximum of a list of naturals (Python `max(...)` over the counts). -/
def maxNat (l : List Nat) : Nat := l.foldl Nat.max 0

/-- PromptAnalyzer._is_spam_like: messages of length ≥ 10 where one
alphabetic character accounts for more than 60% of the alphabetic
characters.  The float comparison `max_char_ratio > 0.6` is modelled as the
exact rational comparison `5 * maxCount > 3 * total`. -/
def is_spam_like (message : String) : Bool :=
  if message.length < 10 then false
  else
    let chars := (message.toList.map Char.toLower).filter (fun c => c.isAlpha)
    let total := chars.length
    if 0 < total then
      decide (5 * maxNat (chars.map (fun c => chars.count c)) > 3 * total)
    else false

/-- PromptAnalyzer._validate_message_quality: `some` verdict when the cheap
pre-filter short-circuits, `none` when the message passes validation. -/
def validate_message_quality (user_message : Option String) : Option AnalysisResult :=
  match user_message with
  | none =>
    some { action := .DIRECT_REPLY, refined_prompt := none, direct_reply := some "😍"
           confidence := 0, reasoning := "Message is None" }
  | some m =>
    let normalized := pyStrip m
    if normalized = "" then
      some { action := .DIRECT_REPLY, refined_prompt := none, direct_reply := some "👌🏻"
             confidence := 0, reasoning := "Message is empty after normalization" }
    else if is_spam_like normalized then
      some { action := .DIRECT_REPLY, refined_prompt := none, direct_reply := some "👋"
             confidence := 0, reasoning := "Spam-like pattern detected" }
    else none

/-- A JSON value, as produced by a successful `json.loads`. -/
inductive JsonVal
  | null
  | bool (b : Bool)
  | num (q : ℚ)
  | str (s : String)
  | arr (xs : List JsonVal)
  | obj (fields : List (String × JsonVal))

/-- The Python exceptions the analyzer code can raise. -/
inductive PyExn
  | jsonDecodeError
  | keyError (k : String)
  | valueError (msg : String)
  | typeError (msg : String)
  | attributeError (msg : String)
  | indexError
  | analysisApiError (status : Nat)
  | httpxError (msg : String)
deriving DecidableEq

/-- The exceptions caught by the `except (json.JSONDecodeError, KeyError,
ValueError)` clause of _parse_analysis_response (pydantic's ValidationError
is a ValueError). -/
def PyExn.catchableInParse : PyExn → Bool
  | .jsonDecodeError => true
  | .keyError _ => true
  | .valueError _ => true
  | _ => false

/-- A short name for an exception, standing in for Python's
`type(e).__name__` in logged reason strings. -/
def PyExn.name : PyExn → String
  | .jsonDecodeError => "JSONDecodeError"
  | .keyError _ => "KeyError"
  | .valueError _ => "ValueError"
  | .typeError _ => "TypeError"
  | .attributeError _ => "AttributeError"
  | .indexError => "IndexError"
  | .analysisApiError _ => "Exception"
  | .httpxError _ => "HTTPError"

/-- External pure library functions the analyzer calls, modelled as oracles:
`loads` is `json.loads` (`none` = JSONDecodeError) and `parseFloat` is
`float(s)` on a string argument (`none` = ValueError). -/
structure PyOracle where
  loads : String → Option JsonVal
  parseFloat : String → Option ℚ

/-- json.loads through the oracle, raising JSONDecodeError on failure. -/
def loadsOr (o : PyOracle) (s : String) : Except PyExn JsonVal :=
  match o.loads s with
  | some j => .ok j
  | none => .error .jsonDecodeError

/-- Python `key in v` for a decoded JSON value (dict key test, list
membership, substring test on strings; TypeError otherwise). -/
def pyIn (key : String) : JsonVal → Except PyExn Bool
  | .obj fs => .ok (fs.any (fun p => p.1 = key))
  | .arr xs => .ok (xs.any (fun v => match v with | .str s => s = key | _ => false))
  | .str s => .ok (pyContains key s)
  | _ => .error (.typeError "argument is not iterable")

/-- Python `len(v)` for a decoded JSON value. -/
def pyLen : JsonVal → Except PyExn Nat
  | .arr xs => .ok xs.length
  | .str s => .ok s.length
  | .obj fs => .ok fs.length
  | _ => .error (.typeError "object has no len")

/-- Python `v[key]` with a string key. -/
def pySubscript (j : JsonVal) (key : String) : Except PyExn JsonVal :=
  match j with
  | .obj fs =>
    match fs.lookup key with
    | some v => .ok v
    | none => .error (.keyError key)
  | _ => .error (.typeError "value is not subscriptable by str")

/-- Python `v[0]`. -/
def pyIndex0 : JsonVal → Except PyExn JsonVal
  | .arr xs =>
    match xs.head? with
    | some v => .ok v
    | none => .error .indexError
  | .str s =>
    match s.toList.head? with
    | some c => .ok (.str (String.mk [c]))
    | none => .error .indexError
  | .obj _ => .error (.keyError "0")
  | _ => .error (.typeError "value is not subscriptable")

/-- Python `v.get(key, dflt)` — AttributeError when `v` is not a dict. -/
def pyGet (j : JsonVal) (key : String) (dflt : JsonVal) : Except PyExn JsonVal :=
  match j with
  | .obj fs => .ok ((fs.lookup key).getD dflt)
  | _ => .error (.attributeError "object has no attribute get")

/-- Coercion of a JSON value into a pydantic `Optional[str]` field
(pydantic's ValidationError subclasses ValueError). -/
def pydanticOptStr : JsonVal → Except PyExn (Option String)
  | .null => .ok none
  | .str s => .ok (some s)
  | _ => .error (.valueError "validation error: str expected")

/-- Python `float(v)` on a JSON value. -/
def pyFloat (o : PyOracle) : JsonVal → Except PyExn ℚ
  | .num q => .ok q
  | .bool b => .ok (if b then 1 else 0)
  | .str s =>
    match o.parseFloat s with
    | some q => .ok q
    | none => .error (.valueError "could not convert string to float")
  | _ => .error (.typeError "float argument must be a string or a number")

/-- PromptAnalyzer._enhance_direct_reply: split a long single-paragraph
reply near its midpoint into two paragraphs. -/
def enhance_direct_reply (reply_text : String) : String :=
  let reply := pyStrip reply_text
  if ¬ reply.toList.contains '\n' ∧ (pySplitOn reply ". ").length ≥ 2 then
    let sentences := pySplitOn reply ". "
    if sentences.length > 2 then
      let mid := sentences.length / 2
      let part1 := pyJoin ". " (sentences.take mid) ++ "."
      let part2 := pyJoin ". " (sentences.drop mid)
      let part2 := if ¬ pyEndsWith part2 "." then part2 ++ "." else part2
      part1 ++ "\n\n" ++ part2
    else reply
  else reply

/-- The body of _parse_analysis_response before its except clause:
`ok (some r)` models `return result`, `ok none` models falling through to
the "Response parsing failed" fallback, `error e` models a raised
exception. -/
def parseCoreAux (o : PyOracle) (response : String) : Except PyExn (Option AnalysisResult) := do
  let response_data ← loadsOr o response
  if (← pyIn "candidates" response_data) then
    let cands ← pySubscript response_data "candidates"
    if 0 < (← pyLen cands) then
      let candidate ← pyIndex0 cands
      if (← pyIn "content" candidate) then
        let content ← pySubscript candidate "content"
        if (← pyIn "parts" content) then
          let parts ← pySubscript content "parts"
          if 0 < (← pyLen parts) then
            let p0 ← pyIndex0 parts
            if (← pyIn "text" p0) then
              let tj ← pySubscript p0 "text"
              let analysis_text ←
                match tj with
                | .str s => Except.ok s
                | _ => Except.error (.typeError "the JSON object must be str")
              let analysis_json ← loadsOr o analysis_text
              let actionVal ← pyGet analysis_json "action" (.str "pass_through")
              let action ←
                match actionVal with
                | .str s =>
                  match AnalysisAction.ofValue s with
                  | some a => Except.ok a
                  | none => Except.error (.valueError "is not a valid AnalysisAction")
                | _ => Except.error (.valueError "is not a valid AnalysisAction")
              let rp ← pydanticOptStr (← pyGet analysis_json "refined_prompt" .null)
              let dr ← pydanticOptStr (← pyGet analysis_json "direct_reply" .null)
              let conf ← pyFloat o (← pyGet analysis_json "confidence" (.num 0))
              let reasoning ←
                match (← pyGet analysis_json "reasoning" (.str "")) with
                | .str s => Except.ok s
                | _ => Except.error (.valueError "validation error: str expected")
              let result : AnalysisResult :=
                { action := action, refined_prompt := rp, direct_reply := dr
                  confidence := conf, reasoning := reasoning }
              let result :=
                if result.action = .DIRECT_REPLY ∧ truthyStr result.direct_reply then
                  { result with direct_reply := some (enhance_direct_reply (result.direct_reply.getD "")) }
                else result
              return some result
            else return none
          else return none
        else return none
      else return none
    else return none
  else return none

/-- PromptAnalyzer._parse_analysis_response: catch the declared exception
tuple, fall back to PASS_THROUGH verdicts; other exceptions propagate. -/
def parse_analysis_response (o : PyOracle) (response : String) : Except PyExn AnalysisResult :=
  match parseCoreAux o response with
  | .ok (some r) => .ok r
  | .ok none => .ok (passThroughResult "Response parsing failed")
  | .error e =>
    if e.catchableInParse then .ok (passThroughResult ("Parse error: " ++ e.name))
    else .error e

/-- Outcome of the httpx call made by _perform_analysis. -/
inductive NetCall
  | transportError (msg : String)
  | response (status : Nat) (body : String)
deriving DecidableEq

/-- httpx `response.is_success`: a 2xx status. -/
def is_success (status : Nat) : Bool := 200 ≤ status ∧ status < 300

/-- PromptAnalyzer._perform_analysis: call the fast model and parse its
response; non-2xx statuses raise `Exception(f"Analysis API error: ...")`. -/
def perform_analysis (o : PyOracle) (net : NetCall) : Except PyExn AnalysisResult :=
  match net with
  | .transportError m => .error (.httpxError m)
  | .response status body =>
    if is_success status then parse_analysis_response o body
    else .error (.analysisApiError status)

/-- What `asyncio.wait_for` on the analysis task observes. -/
inductive NetOutcome
  | outerTimeout
  | completed (c : NetCall)
deriving DecidableEq

/-- PromptAnalyzer.analyze_prompt. Returns the verdict together with a flag
recording whether the network analysis step was entered (false when the
cheap pre-filter short-circuited).  The has_images and possible_language
arguments only shape the prompt string sent upstream, which the NetCall
environment abstracts, so they are not modelled separately.  Total by
construction: every internal exception is absorbed by the try/except of
the source. -/
def analyze_prompt (o : PyOracle) (net : NetOutcome) (elapsed_ms : Nat)
    (user_message : Option String) : AnalysisResult × Bool :=
  match validate_message_quality user_message with
  | some v => (v, false)
  | none =>
    match net with
    | .outerTimeout => (passThroughResult "Analysis timed out for responsiveness", true)
    | .completed c =>
      match perform_analysis o c with
      | .ok r =>
        ({ r with reasoning := r.reasoning ++ " (analyzed in " ++ toString elapsed_ms ++ "ms,)" }, true)
      | .error e => (passThroughResult ("Analysis error: Type: " ++ e.name), true)

/-- Python's `\w` class for the patterns of _filter_content (ASCII range). -/
def isWordChar (c : Char) : Bool := c.isAlphanum || c = '_'

/-- Case-insensitive match of the (lowercase) pattern word `w` at the head
of `l`; returns the remainder after the word on success. -/
def matchWordAt : List Char → List Char → Option (List Char)
  | [], rest => some rest
  | _ :: _, [] => none
  | c :: ws, x :: xs => if x.toLower = c then matchWordAt ws xs else none

/-- Try each alternative of a `\b(w1|w2|...)\b` pattern at the current
position; the trailing `\b` requires the remainder not to start with a word
character. -/
def tryMatch (words : List (List Char)) (l : List Char) : Option (List Char) :=
  match words with
  | [] => none
  | w :: ws =>
    match matchWordAt w l with
    | some rest =>
      if (rest.head?.map isWordChar).getD false then tryMatch ws l else some rest
    | none => tryMatch ws l

/-- The redaction marker of _filter_content. -/
def filterMarker : List Char := "[FILTERED]".toList

/-- Left-to-right scan of `re.sub` for a `\b(w1|w2|...)\b` pattern with
IGNORECASE: `prevW` records whether the previous character of the original
string was a word character (the leading `\b`).  The fuel argument is the
length of the scanned list; every step consumes at least one character. -/
def reSubScan (words : List (List Char)) : Nat → Bool → List Char → List Char
  | 0, _, l => l
  | _ + 1, _, [] => []
  | fuel + 1, prevW, x :: xs =>
    if prevW then x :: reSubScan words fuel (isWordChar x) xs
    else
      match tryMatch words (x :: xs) with
      | some rest => filterMarker ++ reSubScan words fuel true rest
      | none => x :: reSubScan words fuel (isWordChar x) xs

/-- The matching scan of `re.search` for the same pattern. -/
def reSearchScan (words : List (List Char)) : Nat → Bool → List Char → Bool
  | 0, _, _ => false
  | _ + 1, _, [] => false
  | fuel + 1, prevW, x :: xs =>
    if prevW then reSearchScan words fuel (isWordChar x) xs
    else (tryMatch words (x :: xs)).isSome || reSearchScan words fuel (isWordChar x) xs

/-- `re.sub(pattern, "[FILTERED]", s, flags=re.IGNORECASE)`. -/
def reSub (words : List (List Char)) (s : String) : String :=
  String.mk (reSubScan words s.toList.length false s.toList)

/-- `re.search(pattern, s, re.IGNORECASE)` as a Bool. -/
def reSearch (words : List (List Char)) (s : String) : Bool :=
  reSearchScan words s.toList.length false s.toList

/-- The first pattern of _filter_content: `\b(hack|exploit|vulnerability)\b`. -/
def securityWords : List (List Char) :=
  ["hack".toList, "exploit".toList, "vulnerability".toList]

/-- The second pattern of _filter_content: `\b(password|secret|token)\b`. -/
def sensitiveWords : List (List Char) :=
  ["password".toList, "secret".toList, "token".toList]

/-- The redaction passes of _filter_content (lines 426-436): for each
pattern, if it matches, substitute every occurrence with the marker. -/
def redactContent (content : String) : String :=
  let c1 := if reSearch securityWords content then reSub securityWords content else content
  if reSearch sensitiveWords c1 then reSub sensitiveWords c1 else c1

/-- V2MessageTranslator._filter_content: redact sensitive terms, and drop
the chunk entirely (`none`) when the marker is present and stripping the
markers and surrounding whitespace leaves fewer than 5 characters. -/
def filter_content (content : String) : Option String :=
  let content := redactContent content
  if pyContains "[FILTERED]" content
      ∧ (pyStrip (pyReplace content "[FILTERED]" "")).length < 5 then
    none
  else some content

/-- V2MessageTranslator._modify_response: a static find/replace table (the
loop rebinds `modified_chunk` from the original `chunk` on every hit, so
the last matching rule wins and the context clause overrides the table). -/
def modificationsTable : List (String × String) :=
  [("your welcome", "you\x27re welcome"),
   ("definately", "definitely"),
   ("seperate", "separate"),
   ("I can help", "I\x27d be happy to help"),
   ("I don\x27t know", "I\x27m not certain about that, but")]

def modify_response (chunk full_context : String) : String :=
  let modified := modificationsTable.foldl
    (fun acc p =>
      if pyContains (pyLower p.1) (pyLower chunk) then pyReplace chunk p.1 p.2 else acc)
    chunk
  if pyContains "error" (pyLower full_context) ∧ pyContains "help" (pyLower chunk) then
    chunk ++ " Let me provide some additional guidance."
  else modified

/-- V2MessageTranslator._should_inject_system_message trigger phrases. -/
def trigger_phrases : List String :=
  ["I need help with", "Can you explain", "What is the best way"]

/-- V2MessageTranslator._should_inject_system_message. -/
def should_inject_system_message (context : String) : Bool :=
  trigger_phrases.any (fun phrase => pyContains (pyLower phrase) (pyLower context))

/-- An upstream chunk as seen by vertex_to_v2_stream. -/
inductive VChunk
  | str (s : String)
  | image (data : String)
  | other
deriving DecidableEq

/-- A V2ResponseChunk restricted to the shapes vertex_to_v2_stream emits. -/
inductive V2Chunk
  | text (content : String) (is_final : Bool)
  | image (content : String)
  | system (msgType content : String)
deriving DecidableEq

/-- The intercept_config toggles (each `config.get(..., False)`). -/
structure InterceptConfig where
  filter_content : Bool
  modify_responses : Bool
  inject_system_messages : Bool
deriving DecidableEq

/-- The system chunk injected by vertex_to_v2_stream. -/
def injectedSystemChunk : V2Chunk :=
  .system "stream_info"
    "The AI is analyzing your request. Response may be enhanced based on content filters."

/-- The running state of the stream-conversion loop. -/
structure StreamState where
  buffer : String
  intercepted : Nat
  modified : Nat
deriving DecidableEq

/-- One iteration of the `async for` loop of vertex_to_v2_stream: the new
state and the chunks yielded for one upstream chunk. -/
def processChunk (cfg : InterceptConfig) (st : StreamState) : VChunk → StreamState × List V2Chunk
  | .str s =>
    let buf := st.buffer ++ s
    let fres : Option (String × Nat) :=
      if cfg.filter_content then
        match filter_content s with
        | none => none
        | some f => some (f, if f = s then st.intercepted else st.intercepted + 1)
      else some (s, st.intercepted)
    match fres with
    | none =>
      ({ buffer := buf, intercepted := st.intercepted + 1, modified := st.modified }, [])
    | some (ch1, icount) =>
      let (ch2, mcount) :=
        if cfg.modify_responses then
          let m := modify_response ch1 buf
          if m ≠ ch1 then (m, st.modified + 1) else (ch1, st.modified)
        else (ch1, st.modified)
      let injected : List V2Chunk :=
        if cfg.inject_system_messages ∧ should_inject_system_message buf then
          [injectedSystemChunk]
        else []
      ({ buffer := buf, intercepted := icount, modified := mcount },
       injected ++ [.text ch2 false])
  | .image d =>
    -- _filter_image_content is the identity, so the `!=` guard never fires.
    (st, [.image d])
  | .other => (st, [])

/-- The final summary chunk of vertex_to_v2_stream. -/
def finalChunk (st : StreamState) : V2Chunk :=
  .text
    (if 0 < st.intercepted ∨ 0 < st.modified then
      "[Stream processed: " ++ toString st.intercepted ++ " filtered, "
        ++ toString st.modified ++ " enhanced]"
    else "")
    true

/-- V2MessageTranslator.vertex_to_v2_stream over a finite upstream stream. -/
def vertex_to_v2_stream (cfg : InterceptConfig) (chunks : List VChunk) : List V2Chunk :=
  let step := chunks.foldl
    (fun (acc : StreamState × List V2Chunk) ch =>
      let (st, ys) := processChunk cfg acc.1 ch
      (st, acc.2 ++ ys))
    ({ buffer := "", intercepted := 0, modified := 0 }, [])
  step.2 ++ [finalChunk step.1]

/-- An SSE frame built by VertexAIResponseFormatter: the single text part
(`none` models Python `None` serialized as JSON null) and the optional
finishReason of the terminal frame. -/
structure Frame where
  text : Option String
  finishReason : Option String
deriving DecidableEq

/-- VertexAIResponseFormatter.format_text_chunk. -/
def format_text_chunk (text : Option String) (is_final add_newlines : Bool) : Frame :=
  let formatted : Option String :=
    if add_newlines ∧ ¬ is_final then
      some ((match text with | some s => s | none => "None") ++ "\n\n")
    else text
  { text := formatted, finishReason := if is_final then some "STOP" else none }

/-- settings.immediate_response_text. -/
def immediate_response_text : String := "🤖"

/-- VertexAIResponseFormatter.format_immediate_response. -/
def format_immediate_response : Frame :=
  format_text_chunk (some immediate_response_text) false false

/-- VertexAIResponseFormatter.format_direct_reply (the caller passes the
`Optional[str]` direct_reply field straight through). -/
def format_direct_reply (reply_text : Option String) : Frame :=
  format_text_chunk reply_text true false

/-- VertexAIResponseFormatter.format_error_response. -/
def format_error_response (error_message : Option String) : Frame :=
  format_text_chunk error_message true false

/-- The sanitized error text of stream_v2_enhanced_response_with_flush. -/
def genericErrorText : String :=
  "I apologize, but I encountered an error processing your request.\n\nPlease try again."

/-- The sanitized error text of stream_from_vertex_ai for non-2xx statuses. -/
def upstreamErrorText : String :=
  "I encountered an issue processing your request. Please try again."

/-- An item of the orchestrator's output stream: a formatter frame or a raw
upstream chunk forwarded verbatim. -/
inductive OutChunk
  | frame (f : Frame)
  | upstream (s : String)
deriving DecidableEq

/-- One observable step of the orchestrator generator, in program order:
the yields interleaved with the credential/translator, token, and network
effects. -/
inductive TraceItem
  | yieldChunk (c : OutChunk)
  | credentialLoad
  | translate (vreq : VertexRequest)
  | tokenFetch
  | networkCall (vreq : VertexRequest)
  | cancelAnalysis
deriving DecidableEq

/-- Outcome of the upstream httpx call of stream_from_vertex_ai. -/
inductive UpstreamOutcome
  | tokenError (msg : String)
  | transportError (msg : String)
  | response (status : Nat) (chunks : List String)
  | midStreamError (got : List String) (msg : String)
deriving DecidableEq

/-- stream_from_vertex_ai: fetch a token, post the translated request, and
either forward the upstream chunks, emit the sanitized error frame on a
non-2xx status, or propagate a raised transport error (`some msg`). -/
def stream_from_vertex_ai (vreq : VertexRequest) (up : UpstreamOutcome) :
    List TraceItem × Option String :=
  match up with
  | .tokenError m => ([.tokenFetch], some m)
  | .transportError m => ([.tokenFetch, .networkCall vreq], some m)
  | .response status chunks =>
    if is_success status then
      ([.tokenFetch, .networkCall vreq] ++ chunks.map (fun c => .yieldChunk (.upstream c)), none)
    else
      ([.tokenFetch, .networkCall vreq,
        .yieldChunk (.frame (format_error_response (some upstreamErrorText)))], none)
  | .midStreamError got m =>
    ([.tokenFetch, .networkCall vreq] ++ got.map (fun c => .yieldChunk (.upstream c)), some m)

/-- What `asyncio.wait_for(analysis_task, timeout=0.1)` observes in the
orchestrator: a verdict completed within the 0.1 s local deadline, the
deadline expiring, or some other exception from the task machinery. -/
inductive AnalysisOutcome
  | completed (r : AnalysisResult)
  | deadlineExpired
  | raised (msg : String)
deriving DecidableEq

/-- Outcome of `get_translator()` (lazy credential load + project id). -/
inductive InitOutcome
  | ok
  | raised (msg : String)
deriving DecidableEq

/-- The environment of one orchestrator run: settings toggle, whether
get_translator succeeds (credential load), and the analysis outcome. -/
structure OrchEnv where
  analysisEnabled : Bool
  translatorInit : InitOutcome
  analysisOutcome : AnalysisOutcome
deriving DecidableEq

/-- The initial `analysis_result` of step 3 of the orchestrator. -/
def initialResult : AnalysisResult :=
  passThroughResult "Using pass-through for immediate response"

/-- The verdict the orchestrator proceeds with after step 3: the completed
verdict when analysis is enabled and beat the 0.1 s local deadline, the
initial PASS_THROUGH verdict otherwise (disabled, deadline expired, or the
analysis machinery raised). -/
def decidedResult (env : OrchEnv) : AnalysisResult :=
  if env.analysisEnabled then
    match env.analysisOutcome with
    | .completed r => r
    | _ => initialResult
  else initialResult

/-- The acknowledgment yield, the first item of every trace. -/
def ackItem : TraceItem := .yieldChunk (.frame format_immediate_response)

/-- The generic terminal error yield of the outer `except` handler. -/
def errorYield : TraceItem :=
  .yieldChunk (.frame (format_error_response (some genericErrorText)))

/-- apply_refined_prompt of v2_api_enhanced (lines 97-104): replace the
content of the first part whose text is non-empty after trimming. -/
def apply_refined_prompt (contents : List V2ContentPart) (refined_prompt : String) :
    List V2ContentPart :=
  match contents with
  | [] => []
  | p :: rest =>
    if truthyStr p.text ∧ pyStrip ((p.text).getD "") ≠ "" then
      { p with text := some refined_prompt } :: rest
    else p :: apply_refined_prompt rest refined_prompt

/-- stream_v2_enhanced_response_with_flush as an observable trace.

Steps 1-4 follow the source: yield the acknowledgment, initialize the
translator (credential load; an exception there is absorbed by the outer
handler into the terminal error frame), race the analysis task against the
0.1 s deadline (cancelling it on expiry), and short-circuit on
DIRECT_REPLY.

Step 5 then evaluates `analysis_result.action == AnalysisAction.REFINE` —
but the enum (prompt_analyzer.AnalysisAction) defines `REFINED`, not
`REFINE`, so the attribute access raises AttributeError on every path that
reaches it.  The outer `except Exception` turns this into the generic
terminal error frame, so steps 5-6 (refinement, translation, the upstream
call) are unreachable. -/
def orchTrace (env : OrchEnv) (_req : V2ChatRequest) : List TraceItem :=
  match env.translatorInit with
  | .raised _ => [ackItem, .credentialLoad, errorYield]
  | .ok =>
    let cancelTrace : List TraceItem :=
      if env.analysisEnabled then
        match env.analysisOutcome with
        | .deadlineExpired => [.cancelAnalysis]
        | _ => []
      else []
    let r := decidedResult env
    let t := [ackItem, .credentialLoad] ++ cancelTrace
    if r.action = .DIRECT_REPLY then
      t ++ [.yieldChunk (.frame (format_direct_reply r.direct_reply))]
    else
      t ++ [errorYield]

/-- The yields of a trace, in order. -/
def yieldsOf (t : List TraceItem) : List OutChunk :=
  t.filterMap (fun item => match item with | .yieldChunk c => some c | _ => none)

/-- A request used to evaluate the orchestrator at concrete inputs. -/
def demoRequest : V2ChatRequest :=
  { contents := [{ text := some "hi", inlineData := none }], language := some "en", stream := true }

theorem le_foldl_max (l : List Nat) (init : Nat) : init ≤ l.foldl Nat.max init := by
  induction l generalizing init with
  | nil => exact le_refl _
  | cons a tl ih => exact le_trans (Nat.le_max_left init a) (ih _)

theorem le_foldl_max_of_mem {l : List Nat} {x : Nat} (hx : x ∈ l) :
    ∀ init, x ≤ l.foldl Nat.max init := by
  induction l with
  | nil => cases hx
  | cons a tl ih =>
    intro init
    rcases List.mem_cons.mp hx with h | h
    · subst h
      exact le_trans (Nat.le_max_right init x) (le_foldl_max tl _)
    · exact ih h _

theorem le_maxNat_of_mem {l : List Nat} {x : Nat} (hx : x ∈ l) : x ≤ maxNat l :=
  le_foldl_max_of_mem hx 0

theorem startsWithList_append (n : List Char) : ∀ l e : List Char,
    startsWithList n l = true → startsWithList n (l ++ e) = true := by
  induction n with
  | nil => intro l e _; rfl
  | cons a as ih =>
    intro l e h
    cases l with
    | nil => simp [startsWithList] at h
    | cons b bs =>
      simp only [startsWithList, Bool.and_eq_true, decide_eq_true_eq] at h
      simp only [List.cons_append, startsWithList, Bool.and_eq_true, decide_eq_true_eq]
      exact ⟨h.1, ih bs e h.2⟩

theorem listContainsSub_nil_all (e : List Char) : listContainsSub [] e = true := by
  cases e <;> rfl

theorem listContainsSub_append (n : List Char) : ∀ l e : List Char,
    listContainsSub n l = true → listContainsSub n (l ++ e) = true := by
  intro l
  induction l with
  | nil =>
    intro e h
    cases n with
    | nil => exact listContainsSub_nil_all e
    | cons a as => simp [listContainsSub, startsWithList] at h
  | cons b bs ih =>
    intro e h
    simp only [listContainsSub, Bool.or_eq_true] at h
    simp only [List.cons_append, listContainsSub, Bool.or_eq_true]
    rcases h with h | h
    · exact Or.inl (startsWithList_append n (b :: bs) e h)
    · exact Or.inr (ih e h)

/-- C3: for every request handled by the streaming orchestrator, the first
event yielded on the output stream is the acknowledgment event, so it
precedes every credential-load, token-retrieval, and network effect of the
trace. -/
theorem c3_ack_is_first_event (env : OrchEnv) (req : V2ChatRequest) :
    ∃ t, orchTrace env req = ackItem :: t := by
  unfold orchTrace
  cases env.translatorInit with
  | raised m => exact ⟨_, rfl⟩
  | ok =>
    dsimp only
    split
    · exact ⟨_, rfl⟩
    · exact ⟨_, rfl⟩

/-- C1: the claim says a Refine verdict with a non-empty refined prompt is
applied and the request is then translated and proxied.  The code instead
evaluates `AnalysisAction.REFINE`, an attribute the enum does not define
(its member is `REFINED`), so it raises AttributeError and the outer
handler emits the generic terminal error frame: no translate, token, or
network effect ever occurs.  This theorem evaluates the modelled source at
such a failing input. -/
theorem c1_refine_path_is_broken :
    orchTrace
        ⟨true, .ok, .completed ⟨.REFINED, some "a refined prompt", none, 0, ""⟩⟩
        demoRequest
      = [ackItem, .credentialLoad, errorYield]
    ∧ (format_error_response (some genericErrorText)).finishReason = some "STOP" := by
  exact ⟨rfl, rfl⟩

/-- C6: with analysis disabled, or on expiry of the 0.1 s local deadline
(with the task cancelled), the verdict the orchestrator proceeds with is
PASS_THROUGH — but the claim's final part fails: the original content
parts are never translated, because step 5 raises AttributeError
(`AnalysisAction.REFINE` does not exist) and the generic terminal error
frame is emitted instead.  This theorem evaluates the modelled source at
both failing inputs. -/
theorem c6_passthrough_path_is_broken :
    (decidedResult ⟨false, .ok, .deadlineExpired⟩).action = .PASS_THROUGH
    ∧ orchTrace ⟨false, .ok, .deadlineExpired⟩ demoRequest
      = [ackItem, .credentialLoad, errorYield]
    ∧ (decidedResult ⟨true, .ok, .deadlineExpired⟩).action = .PASS_THROUGH
    ∧ orchTrace ⟨true, .ok, .deadlineExpired⟩ demoRequest
      = [ackItem, .credentialLoad, .cancelAnalysis, errorYield] := by
  exact ⟨rfl, rfl, rfl, rfl⟩

/-- C2: whenever the orchestrator run fails — get_translator raising during
credential load, or any non-short-circuited run (which, in this source,
always raises at step 5) — the output stream is exactly the acknowledgment
followed by one generic error frame carrying a finishReason, with nothing
after it; and the dead upstream branch of stream_from_vertex_ai likewise
turns any non-2xx status (e.g. 503) into exactly one terminal error frame
and a normal generator return. -/
theorem c2_errors_end_with_one_terminal_frame :
    (∀ (env : OrchEnv) (req : V2ChatRequest),
      ((∃ m, env.translatorInit = .raised m) ∨
        (env.translatorInit = .ok ∧ (decidedResult env).action ≠ .DIRECT_REPLY)) →
      yieldsOf (orchTrace env req) =
        [.frame format_immediate_response,
         .frame (format_error_response (some genericErrorText))]
      ∧ (format_error_response (some genericErrorText)).finishReason = some "STOP"
      ∧ format_immediate_response.finishReason = none)
    ∧ (∀ (vreq : VertexRequest) (status : Nat) (chunks : List String),
      is_success status = false →
      stream_from_vertex_ai vreq (.response status chunks) =
        ([.tokenFetch, .networkCall vreq,
          .yieldChunk (.frame (format_error_response (some upstreamErrorText)))], none)
      ∧ (format_error_response (some upstreamErrorText)).finishReason = some "STOP") := by
  constructor
  · intro env req h
    refine ⟨?_, rfl, rfl⟩
    obtain ⟨enb, tinit, outcome⟩ := env
    rcases h with ⟨m, hm⟩ | ⟨hok, hact⟩
    · simp only at hm
      subst hm
      rfl
    · simp only at hok
      subst hok
      simp only [decidedResult] at hact
      cases enb <;> cases outcome <;>
        simp_all [orchTrace, decidedResult, yieldsOf, ackItem, errorYield, initialResult,
          passThroughResult]
  · intro vreq status chunks h
    refine ⟨?_, rfl⟩
    simp [stream_from_vertex_ai, h]

/-- C2 witness: a concrete non-short-circuited run and a concrete 503
upstream response. -/
theorem c2_witness :
    (yieldsOf (orchTrace ⟨true, .ok, .completed (passThroughResult "ok")⟩ demoRequest) =
      [.frame format_immediate_response,
       .frame (format_error_response (some genericErrorText))]
      ∧ (format_error_response (some genericErrorText)).finishReason = some "STOP"
      ∧ format_immediate_response.finishReason = none)
    ∧ (stream_from_vertex_ai (v2_to_vertex demoRequest) (.response 503 ["oops"]) =
        ([.tokenFetch, .networkCall (v2_to_vertex demoRequest),
          .yieldChunk (.frame (format_error_response (some upstreamErrorText)))], none)
      ∧ (format_error_response (some upstreamErrorText)).finishReason = some "STOP") := by
  exact ⟨c2_errors_end_with_one_terminal_frame.1 _ demoRequest
      (Or.inr ⟨rfl, by decide⟩),
    c2_errors_end_with_one_terminal_frame.2 (v2_to_vertex demoRequest) 503 ["oops"] (by decide)⟩

/-- C4: analyze_prompt never raises — for every oracle, network outcome and
message that passes the pre-filter, each internal failure (the caller-side
deadline expiring, a raised exception such as a transport error or a
non-2xx analysis API status, unparseable JSON, or a parse fallthrough)
yields a verdict whose action is PASS_THROUGH and whose reasoning field
records the failure. -/
theorem c4_analyzer_never_raises (o : PyOracle) (net : NetOutcome) (ms : Nat)
    (msg : Option String)
    (hval : validate_message_quality msg = none)
    (hfail : net = .outerTimeout
      ∨ (∃ c e, net = .completed c ∧ perform_analysis o c = .error e)
      ∨ (∃ status body, net = .completed (.response status body) ∧ is_success status = true
          ∧ (parseCoreAux o body = .ok none ∨ ∃ e, parseCoreAux o body = .error e))) :
    (analyze_prompt o net ms msg).1.action = .PASS_THROUGH
    ∧ ((analyze_prompt o net ms msg).1.reasoning = "Analysis timed out for responsiveness"
      ∨ (∃ e : PyExn,
          (analyze_prompt o net ms msg).1.reasoning = "Analysis error: Type: " ++ e.name)
      ∨ (∃ e : PyExn,
          (analyze_prompt o net ms msg).1.reasoning
            = ("Parse error: " ++ e.name) ++ " (analyzed in " ++ toString ms ++ "ms,)")
      ∨ (analyze_prompt o net ms msg).1.reasoning
          = "Response parsing failed" ++ " (analyzed in " ++ toString ms ++ "ms,)") := by
  rcases hfail with h | ⟨c, e, hc, hp⟩ | ⟨status, body, hc, hsucc, hparse⟩
  · subst h
    simp [analyze_prompt, hval, passThroughResult]
  · subst hc
    simp only [analyze_prompt, hval, hp]
    exact ⟨rfl, Or.inr (Or.inl ⟨e, rfl⟩)⟩
  · subst hc
    have hperf : perform_analysis o (.response status body) = parse_analysis_response o body := by
      simp [perform_analysis, hsucc]
    rcases hparse with hok | ⟨e, herr⟩
    · have : parse_analysis_response o body = .ok (passThroughResult "Response parsing failed") := by
        simp [parse_analysis_response, hok]
      simp only [analyze_prompt, hval, hperf, this]
      exact ⟨rfl, Or.inr (Or.inr (Or.inr rfl))⟩
    · cases hcat : e.catchableInParse with
      | true =>
        have : parse_analysis_response o body
            = .ok (passThroughResult ("Parse error: " ++ e.name)) := by
          simp [parse_analysis_response, herr, hcat]
        simp only [analyze_prompt, hval, hperf, this]
        exact ⟨rfl, Or.inr (Or.inr (Or.inl ⟨e, rfl⟩))⟩
      | false =>
        have : parse_analysis_response o body = .error e := by
          simp [parse_analysis_response, herr, hcat]
        simp only [analyze_prompt, hval, hperf, this]
        exact ⟨rfl, Or.inr (Or.inl ⟨e, rfl⟩)⟩

/-- C4 witness: an oracle whose json.loads always fails, a 2xx body that
therefore cannot be parsed, and a message that passes the pre-filter. -/
theorem c4_witness :
    (analyze_prompt ⟨fun _ => none, fun _ => none⟩
        (.completed (.response 200 "not json")) 7 (some "hello world.")).1.action
      = .PASS_THROUGH
    ∧ ((analyze_prompt ⟨fun _ => none, fun _ => none⟩
        (.completed (.response 200 "not json")) 7 (some "hello world.")).1.reasoning
        = "Analysis timed out for responsiveness"
      ∨ (∃ e : PyExn,
          (analyze_prompt ⟨fun _ => none, fun _ => none⟩
            (.completed (.response 200 "not json")) 7 (some "hello world.")).1.reasoning
            = "Analysis error: Type: " ++ e.name)
      ∨ (∃ e : PyExn,
          (analyze_prompt ⟨fun _ => none, fun _ => none⟩
            (.completed (.response 200 "not json")) 7 (some "hello world.")).1.reasoning
            = ("Parse error: " ++ e.name) ++ " (analyzed in " ++ toString 7 ++ "ms,)")
      ∨ (analyze_prompt ⟨fun _ => none, fun _ => none⟩
          (.completed (.response 200 "not json")) 7 (some "hello world.")).1.reasoning
          = "Response parsing failed" ++ " (analyzed in " ++ toString 7 ++ "ms,)") :=
  c4_analyzer_never_raises ⟨fun _ => none, fun _ => none⟩
    (.completed (.response 200 "not json")) 7 (some "hello world.")
    (by decide)
    (Or.inr (Or.inr ⟨200, "not json", rfl, by decide, Or.inr ⟨.jsonDecodeError, rfl⟩⟩))

/-- C5: the cheap pre-filter short-circuits to DirectReply without the
network step — for spam-like messages (length at least 10 after stripping
where one alphabetic character exceeds 60% of the message, which implies
it exceeds 60% of the alphabetic characters the code measures), for a None
message, and for a message that is empty after stripping.  In all three
cases the verdict is independent of the oracle and the network outcome and
the network flag is false. -/
theorem c5_prefilter_short_circuits :
    (∀ (o : PyOracle) (net : NetOutcome) (ms : Nat) (m : String),
      10 ≤ (pyStrip m).length →
      (∃ c : Char, c.isAlpha = true
        ∧ 3 * (pyStrip m).length < 5 * (((pyStrip m).toList.map Char.toLower).count c)) →
      analyze_prompt o net ms (some m)
        = (⟨.DIRECT_REPLY, none, some "👋", 0, "Spam-like pattern detected"⟩, false))
    ∧ (∀ (o : PyOracle) (net : NetOutcome) (ms : Nat),
      analyze_prompt o net ms none
        = (⟨.DIRECT_REPLY, none, some "😍", 0, "Message is None"⟩, false))
    ∧ (∀ (o : PyOracle) (net : NetOutcome) (ms : Nat) (m : String),
      pyStrip m = "" →
      analyze_prompt o net ms (some m)
        = (⟨.DIRECT_REPLY, none, some "👌🏻", 0, "Message is empty after normalization"⟩, false)) := by
  refine ⟨?_, ?_, ?_⟩
  · intro o net ms m hlen ⟨c, hca, hcount⟩
    have hlen0 : (pyStrip m).toList.length = (pyStrip m).length := rfl
    have hne : pyStrip m ≠ "" := by
      intro h
      rw [h] at hlen
      simp at hlen
    have hspam : is_spam_like (pyStrip m) = true := by
      unfold is_spam_like
      rw [if_neg (by omega : ¬ (pyStrip m).length < 10)]
      dsimp only
      set L := (pyStrip m).toList.map Char.toLower with hLdef
      set chars := L.filter (fun x => x.isAlpha) with hcharsdef
      have hLlen : L.length = (pyStrip m).length := by
        rw [hLdef, List.length_map, hlen0]
      have hcpos : 0 < L.count c := by omega
      have hcmemL : c ∈ L := List.count_pos_iff.mp hcpos
      have hcmem : c ∈ chars := by
        rw [hcharsdef]
        exact List.mem_filter.mpr ⟨hcmemL, hca⟩
      have hcount_eq : chars.count c = L.count c := by
        rw [hcharsdef]
        exact List.count_filter hca
      have hmax : chars.count c ≤ maxNat (chars.map (fun x => chars.count x)) :=
        le_maxNat_of_mem (List.mem_map_of_mem (fun x => chars.count x) hcmem)
      have htotal : chars.length ≤ (pyStrip m).length := by
        rw [← hLlen, hcharsdef]
        exact List.length_filter_le _ _
      have hpos : 0 < chars.length := List.length_pos_of_mem hcmem
      rw [if_pos hpos]
      refine decide_eq_true ?_
      calc 3 * chars.length ≤ 3 * (pyStrip m).length := by omega
        _ < 5 * (L.count c) := hcount
        _ = 5 * (chars.count c) := by rw [hcount_eq]
        _ ≤ 5 * maxNat (chars.map (fun x => chars.count x)) := by omega
    have hval : validate_message_quality (some m)
        = some ⟨.DIRECT_REPLY, none, some "👋", 0, "Spam-like pattern detected"⟩ := by
      unfold validate_message_quality
      dsimp only
      rw [if_neg hne, if_pos hspam]
    simp [analyze_prompt, hval]
  · intro o net ms
    rfl
  · intro o net ms m hempty
    have hval : validate_message_quality (some m)
        = some ⟨.DIRECT_REPLY, none, some "👌🏻", 0, "Message is empty after normalization"⟩ := by
      unfold validate_message_quality
      dsimp only
      rw [if_pos hempty]
    simp [analyze_prompt, hval]

/-- C5 witness: the scenario-A input "aaaaaaaaaa" is classified as spam with
no network call, a None message and a whitespace message get the filler
replies. -/
theorem c5_witness :
    analyze_prompt ⟨fun _ => none, fun _ => none⟩ .outerTimeout 0 (some "aaaaaaaaaa")
      = (⟨.DIRECT_REPLY, none, some "👋", 0, "Spam-like pattern detected"⟩, false)
    ∧ analyze_prompt ⟨fun _ => none, fun _ => none⟩ .outerTimeout 0 none
      = (⟨.DIRECT_REPLY, none, some "😍", 0, "Message is None"⟩, false)
    ∧ analyze_prompt ⟨fun _ => none, fun _ => none⟩ .outerTimeout 0 (some "   ")
      = (⟨.DIRECT_REPLY, none, some "👌🏻", 0, "Message is empty after normalization"⟩, false) :=
  ⟨c5_prefilter_short_circuits.1 ⟨fun _ => none, fun _ => none⟩ .outerTimeout 0 "aaaaaaaaaa"
      (by decide) ⟨'a', by decide, by decide⟩,
    c5_prefilter_short_circuits.2.1 ⟨fun _ => none, fun _ => none⟩ .outerTimeout 0,
    c5_prefilter_short_circuits.2.2 ⟨fun _ => none, fun _ => none⟩ .outerTimeout 0 "   " (by decide)⟩

theorem partToVertex_text (t : String) (h : pyStrip t ≠ "") :
    partToVertex ⟨some t, none⟩ = [.text (pyStrip t)] := by
  have h0 : t ≠ "" := by
    intro he
    subst he
    exact h rfl
  simp [partToVertex, truthyStr, h0, h]

theorem partToVertex_image (mime payload : String) (h : payload ≠ "")
    (hmime : pyStartsWith mime "image/" = true) :
    partToVertex ⟨none, some [("mimeType", mime), ("data", payload)]⟩
      = [.inlineData mime (stripDataUrl payload)] := by
  simp [partToVertex, truthyStr, truthyDict, dictGet, h, hmime]

/-- C7 counterexample: for a payload holding two commas, the claim predicts
that only the data-URL prefix (the portion up to a comma) is stripped,
i.e. a payload of "AAAA,BBBB"; the translation instead keeps only "AAAA",
because `data.split(",")[1]` discards everything after the second comma. -/
theorem c7_counterexample :
    (v2_to_vertex ⟨[⟨some "Hello", none⟩,
        ⟨none, some [("mimeType", "image/png"), ("data", "data:image/png;base64,AAAA,BBBB")]⟩],
        some "en", true⟩).contents
      = [⟨"user", [.text "Hello", .inlineData "image/png" "AAAA"]⟩]
    ∧ ("AAAA" : String) ≠ "AAAA,BBBB" :=
  ⟨rfl, by decide⟩

/-- C7 amended: for a default-language request of one text part that is
non-empty after stripping followed by one inline image part with a
non-empty payload, translation yields one "user" turn whose parts are a
text part carrying the stripped text followed by an inline-data part with
the same MIME type and the comma-split payload (`stripDataUrl`: unchanged
without a comma, otherwise only the second comma-separated segment). -/
theorem c7_amended (text mime payload : String)
    (htext : pyStrip text ≠ "") (hdata : payload ≠ "")
    (hmime : pyStartsWith mime "image/" = true) :
    (v2_to_vertex ⟨[⟨some text, none⟩, ⟨none, some [("mimeType", mime), ("data", payload)]⟩],
        some "en", true⟩).contents
      = [⟨"user", [.text (pyStrip text), .inlineData mime (stripDataUrl payload)]⟩] := by
  have h1 := partToVertex_text text htext
  have h2 := partToVertex_image mime payload hdata hmime
  simp [v2_to_vertex, langParts, h1, h2]

/-- C7 witness for the amended statement at a concrete request. -/
theorem c7_witness :
    (v2_to_vertex ⟨[⟨some "Hi", none⟩,
        ⟨none, some [("mimeType", "image/png"), ("data", "data:image/png;base64,QUJD")]⟩],
        some "en", true⟩).contents
      = [⟨"user", [.text (pyStrip "Hi"),
          .inlineData "image/png" (stripDataUrl "data:image/png;base64,QUJD")]⟩] :=
  c7_amended "Hi" "image/png" "data:image/png;base64,QUJD" (by decide) (by decide) (by decide)

theorem splitComma_ne_nil (l : List Char) : splitComma l ≠ [] := by
  cases l with
  | nil => simp [splitComma]
  | cons c rest =>
    simp only [splitComma]
    cases splitComma rest with
    | nil => simp
    | cons s ss => by_cases h : c = ',' <;> simp [h]

theorem splitComma_no_comma (a : List Char) (ha : ',' ∉ a) : splitComma a = [a] := by
  induction a with
  | nil => rfl
  | cons x xs ih =>
    have hx : x ≠ ',' := fun h => ha (h ▸ List.mem_cons_self x xs)
    have hxs : ',' ∉ xs := fun h => ha (List.mem_cons_of_mem _ h)
    simp [splitComma, ih hxs, hx]

theorem splitComma_append (a : List Char) (ha : ',' ∉ a) (rest : List Char) :
    splitComma (a ++ ',' :: rest) = a :: splitComma rest := by
  induction a with
  | nil =>
    simp only [List.nil_append, splitComma]
    cases h : splitComma rest with
    | nil => exact absurd h (splitComma_ne_nil rest)
    | cons s ss => simp
  | cons x xs ih =>
    have hx : x ≠ ',' := fun h => ha (h ▸ List.mem_cons_self x xs)
    have hxs : ',' ∉ xs := fun h => ha (List.mem_cons_of_mem _ h)
    simp only [List.cons_append, splitComma, List.append_eq]
    rw [ih hxs]
    simp [hx]

theorem String.mk_ne_empty (l : List Char) (h : l ≠ []) : String.mk l ≠ "" := by
  intro he
  exact h (congrArg String.data he)

theorem stripDataUrl_two_commas (a b c : List Char) (ha : ',' ∉ a) (hb : ',' ∉ b) :
    stripDataUrl (String.mk (a ++ ',' :: (b ++ ',' :: c))) = String.mk b := by
  unfold stripDataUrl
  have hmem : ',' ∈ a ++ ',' :: (b ++ ',' :: c) :=
    List.mem_append_right a (List.mem_cons_self _ _)
  rw [if_pos (by simp only [List.contains]; exact List.elem_eq_true_of_mem hmem)]
  have h1 : splitComma ((String.mk (a ++ ',' :: (b ++ ',' :: c))).toList)
      = a :: (b :: splitComma c) := by
    show splitComma (a ++ ',' :: (b ++ ',' :: c)) = a :: (b :: splitComma c)
    rw [splitComma_append a ha, splitComma_append b hb]
  rw [h1]

theorem stripDataUrl_one_comma (a b : List Char) (ha : ',' ∉ a) (hb : ',' ∉ b) :
    stripDataUrl (String.mk (a ++ ',' :: b)) = String.mk b := by
  unfold stripDataUrl
  have hmem : ',' ∈ a ++ ',' :: b := List.mem_append_right a (List.mem_cons_self _ _)
  rw [if_pos (by simp only [List.contains]; exact List.elem_eq_true_of_mem hmem)]
  have h1 : splitComma ((String.mk (a ++ ',' :: b)).toList) = a :: [b] := by
    show splitComma (a ++ ',' :: b) = a :: [b]
    rw [splitComma_append a ha, splitComma_no_comma b hb]
  rw [h1]

theorem stripDataUrl_no_comma (p : String) (hp : ',' ∉ p.toList) :
    stripDataUrl p = p := by
  unfold stripDataUrl
  rw [if_neg]
  intro hc
  exact hp (List.mem_of_elem_eq_true hc)

/-- C10: for an inline image part, data-URL stripping splits the payload on
every comma and keeps only the second segment — for a payload of the shape
`a,b,c` (no commas inside `a` or `b`) the translation keeps exactly `b`,
silently discarding everything after the second comma; for a single comma
it keeps everything after it, and a comma-free payload passes through
unchanged. -/
theorem c10_split_keeps_second_segment (mime : String)
    (hmime : pyStartsWith mime "image/" = true) :
    (∀ a b c : List Char, ',' ∉ a → ',' ∉ b →
      partToVertex ⟨none, some [("mimeType", mime),
          ("data", String.mk (a ++ ',' :: (b ++ ',' :: c)))]⟩
        = [.inlineData mime (String.mk b)])
    ∧ (∀ a b : List Char, ',' ∉ a → ',' ∉ b →
      partToVertex ⟨none, some [("mimeType", mime), ("data", String.mk (a ++ ',' :: b))]⟩
        = [.inlineData mime (String.mk b)])
    ∧ (∀ p : String, ',' ∉ p.toList → p ≠ "" →
      partToVertex ⟨none, some [("mimeType", mime), ("data", p)]⟩
        = [.inlineData mime p]) := by
  refine ⟨?_, ?_, ?_⟩
  · intro a b c ha hb
    have hne : String.mk (a ++ ',' :: (b ++ ',' :: c)) ≠ "" :=
      String.mk_ne_empty _ (by simp)
    rw [partToVertex_image mime _ hne hmime, stripDataUrl_two_commas a b c ha hb]
  · intro a b ha hb
    have hne : String.mk (a ++ ',' :: b) ≠ "" := String.mk_ne_empty _ (by simp)
    rw [partToVertex_image mime _ hne hmime, stripDataUrl_one_comma a b ha hb]
  · intro p hp hne
    rw [partToVertex_image mime _ hne hmime, stripDataUrl_no_comma p hp]

/-- C10 witness: a two-comma payload keeps only the middle segment, a
comma-free payload is unchanged. -/
theorem c10_witness :
    partToVertex ⟨none, some [("mimeType", "image/png"),
        ("data", String.mk ("data:image/png;base64".toList
          ++ ',' :: ("QUJD".toList ++ ',' :: "extra".toList)))]⟩
      = [.inlineData "image/png" (String.mk "QUJD".toList)]
    ∧ partToVertex ⟨none, some [("mimeType", "image/png"), ("data", "QUJD")]⟩
      = [.inlineData "image/png" "QUJD"] :=
  ⟨(c10_split_keeps_second_segment "image/png" (by decide)).1
      "data:image/png;base64".toList "QUJD".toList "extra".toList (by decide) (by decide),
    (c10_split_keeps_second_segment "image/png" (by decide)).2.2 "QUJD" (by decide) (by decide)⟩

theorem pyLower_append_toList (ctx t : String) :
    (pyLower (ctx ++ t)).toList = (pyLower ctx).toList ++ (pyLower t).toList := by
  show ((ctx ++ t).data.map Char.toLower)
      = (ctx.data.map Char.toLower) ++ (t.data.map Char.toLower)
  rw [String.data_append, List.map_append]

/-- C8 counterexample: with injection enabled, a stream whose first chunk
already contains a trigger phrase gets a SystemNotice injected before the
first chunk AND again before the second chunk — the loop has no
once-per-stream flag, refuting "at most one synthetic SystemNotice event
is injected per stream". -/
theorem c8_counterexample :
    (vertex_to_v2_stream ⟨false, false, true⟩ [.str "I need help with", .str "!"]).countP
        (fun ch => match ch with | .system _ _ => true | _ => false) = 2 := rfl

/-- C8 amended: each text chunk whose accumulated context (including the
current chunk) contains a trigger phrase is preceded by its own injected
SystemNotice — and since the accumulated context only grows, once a
trigger phrase has appeared every later text chunk is preceded by an
injection; there is no once-per-stream limit. -/
theorem c8_injection_per_triggering_chunk :
    (∀ (st : StreamState) (s : String),
      processChunk ⟨false, false, true⟩ st (.str s) =
        (⟨st.buffer ++ s, st.intercepted, st.modified⟩,
         (if should_inject_system_message (st.buffer ++ s) then [injectedSystemChunk] else [])
           ++ [.text s false]))
    ∧ (∀ ctx t : String, should_inject_system_message ctx = true →
        should_inject_system_message (ctx ++ t) = true) := by
  constructor
  · intro st s
    by_cases h : should_inject_system_message (st.buffer ++ s) = true
    · simp [processChunk, h]
    · simp [processChunk, h]
  · intro ctx t h
    simp only [should_inject_system_message, List.any_eq_true] at h ⊢
    obtain ⟨phrase, hmem, hc⟩ := h
    refine ⟨phrase, hmem, ?_⟩
    unfold pyContains at hc ⊢
    rw [pyLower_append_toList]
    exact listContainsSub_append _ _ _ hc

/-- C8 witness for the amended statement at concrete inputs. -/
theorem c8_witness :
    processChunk ⟨false, false, true⟩ ⟨"", 0, 0⟩ (.str "I need help with") =
      (⟨"" ++ "I need help with", 0, 0⟩,
       (if should_inject_system_message ("" ++ "I need help with") then [injectedSystemChunk]
        else []) ++ [.text "I need help with" false])
    ∧ should_inject_system_message ("I need help with" ++ "!") = true :=
  ⟨c8_injection_per_triggering_chunk.1 ⟨"", 0, 0⟩ "I need help with",
   c8_injection_per_triggering_chunk.2 "I need help with" "!" (by decide)⟩

/-- C9 counterexample: "hack ab   " is redacted to "[FILTERED] ab   ",
which has 6 non-marker characters — the claim predicts the event is kept
(not fewer than 5) — yet the filter drops it, because the code strips
surrounding whitespace before counting. -/
theorem c9_counterexample :
    filter_content "hack ab   " = none
    ∧ redactContent "hack ab   " = "[FILTERED] ab   "
    ∧ (pyReplace (redactContent "hack ab   ") "[FILTERED]" "").length = 6
    ∧ ¬ ((pyReplace (redactContent "hack ab   ") "[FILTERED]" "").length < 5) :=
  ⟨rfl, rfl, rfl, by decide⟩

/-- C9 amended: the filter returns either the drop result or the redacted
event; it drops exactly when the redacted event contains the marker and
removing all markers and stripping surrounding whitespace leaves fewer
than 5 characters; and an event matching no pattern that does not already
contain the literal marker is returned unchanged. -/
theorem c9_filter_drop_characterization :
    (∀ content : String,
      filter_content content = none ∨ filter_content content = some (redactContent content))
    ∧ (∀ content : String,
      filter_content content = none ↔
        (pyContains "[FILTERED]" (redactContent content) = true
          ∧ (pyStrip (pyReplace (redactContent content) "[FILTERED]" "")).length < 5))
    ∧ (∀ content : String,
      reSearch securityWords content = false → reSearch sensitiveWords content = false →
      pyContains "[FILTERED]" content = false →
      filter_content content = some content) := by
  refine ⟨?_, ?_, ?_⟩
  · intro content
    unfold filter_content
    dsimp only
    split
    · exact Or.inl rfl
    · exact Or.inr rfl
  · intro content
    unfold filter_content
    dsimp only
    constructor
    · intro h
      by_cases hcond : (pyContains "[FILTERED]" (redactContent content) = true
          ∧ (pyStrip (pyReplace (redactContent content) "[FILTERED]" "")).length < 5)
      · exact hcond
      · rw [if_neg hcond] at h
        cases h
    · intro hcond
      rw [if_pos hcond]
  · intro content h1 h2 h3
    have hred : redactContent content = content := by
      simp [redactContent, h1, h2]
    unfold filter_content
    dsimp only
    rw [hred, if_neg]
    intro hcond
    rw [h3] at hcond
    cases hcond.1

/-- C9 witness: a pattern-free event without the literal marker is returned
unchanged. -/
theorem c9_witness : filter_content "good day" = some "good day" :=
  c9_filter_drop_characterization.2.2 "good day" (by decide) (by decide) (by decide)
